import Mathlib

/-!
Verification of the distributed cache / leader-election core of this
repository: the `CacheService` two-level cache (`src/libs/CacheService.ts`),
the `Leader` election lock (`src/libs/leader/Leader.ts`), the `FmkTimer`
multiplexer, and the `RedisClient` hash-counter operations.

Modelling conventions, shared by all definitions below:
* JavaScript objects used as string-keyed maps (`levelOneCache`,
  `levelOneCacheTTL`, `this.timer`, the Redis key space) are embedded as
  association lists; `obj[k] = v` is `assocInsert`, `delete obj[k]` is
  `assocErase`, `obj[k]` is `assocLookup` (returning `none` for the
  JavaScript `undefined`).
* JavaScript runtime values that flow through the cache are embedded as
  `JsVal`; `_.isNil` and JavaScript boolean coercion (truthiness) are
  `isNil` and `truthy`.
* `JSON.stringify`/`JSON.parse` of a cached value round-trip for the
  JSON-representable values the cache stores, so the Redis string payload is
  represented by the decoded `JsVal` itself.  The cache key is already the
  serialized form of the caller's parameter (`JSON.stringify(param)`), so
  model keys are plain strings.
* `async` methods are embedded as pure state transformers; the outcome of
  each Redis round trip wires in as an explicit argument (a fault flag where
  a claim concerns thrown transport errors).
-/

/-! ### Association-list primitives (JavaScript object-as-map embedding) -/

/-- `obj[k]` on a JavaScript object: first binding wins, `none` = `undefined`. -/
def assocLookup {κ α : Type} [DecidableEq κ] (k : κ) : List (κ × α) → Option α
  | [] => none
  | (k', v) :: rest => if k = k' then some v else assocLookup k rest

/-- `obj[k] = v`: replace in place if the key exists, else append. -/
def assocInsert {κ α : Type} [DecidableEq κ] (k : κ) (v : α) : List (κ × α) → List (κ × α)
  | [] => [(k, v)]
  | (k', v') :: rest => if k = k' then (k, v) :: rest else (k', v') :: assocInsert k v rest

/-- `delete obj[k]`: remove every binding of `k`. -/
def assocErase {κ α : Type} [DecidableEq κ] (k : κ) (l : List (κ × α)) : List (κ × α) :=
  l.filter (fun p => decide (p.1 ≠ k))

theorem assocLookup_insert_self {κ α : Type} [DecidableEq κ] (k : κ) (v : α)
    (l : List (κ × α)) : assocLookup k (assocInsert k v l) = some v := by
  induction l with
  | nil => simp [assocInsert, assocLookup]
  | cons p rest ih =>
    by_cases h : k = p.1 <;> simp [assocInsert, assocLookup, h, ih]

theorem assocLookup_insert_ne {κ α : Type} [DecidableEq κ] {k k' : κ} (h : k ≠ k') (v : α)
    (l : List (κ × α)) : assocLookup k (assocInsert k' v l) = assocLookup k l := by
  induction l with
  | nil => simp [assocInsert, assocLookup, h]
  | cons p rest ih =>
    by_cases h1 : k' = p.1
    · subst h1
      simp [assocInsert, assocLookup, h]
    · by_cases h2 : k = p.1 <;> simp [assocInsert, assocLookup, h1, h2, ih]

theorem assocLookup_erase {κ α : Type} [DecidableEq κ] (k k' : κ) (l : List (κ × α)) :
    assocLookup k (assocErase k' l) = if k = k' then none else assocLookup k l := by
  induction l with
  | nil => by_cases h : k = k' <;> simp [assocErase, assocLookup, h]
  | cons p rest ih =>
    rcases p with ⟨k1, v1⟩
    by_cases h1 : k1 = k' <;> by_cases h2 : k = k1 <;>
      simp_all [assocErase, assocLookup, List.filter_cons]

theorem assocLookup_mem {κ α : Type} [DecidableEq κ] {k : κ} {e : α} {l : List (κ × α)}
    (h : assocLookup k l = some e) : (k, e) ∈ l := by
  induction l with
  | nil => simp [assocLookup] at h
  | cons p rest ih =>
    by_cases h1 : k = p.1
    · subst h1
      simp [assocLookup] at h
      simp [← h]
    · simp [assocLookup, h1] at h
      exact List.mem_cons_of_mem _ (ih h)

theorem assocLookup_foldl_erase {κ α : Type} [DecidableEq κ] (k : κ) (ks : List κ)
    (l : List (κ × α)) :
    assocLookup k (ks.foldl (fun m k' => assocErase k' m) l) =
      if k ∈ ks then none else assocLookup k l := by
  induction ks generalizing l with
  | nil => simp
  | cons k0 rest ih =>
    by_cases h : k = k0
    · subst h
      simp [List.foldl_cons, ih, assocLookup_erase]
    · simp [List.foldl_cons, ih, assocLookup_erase, h]

theorem mem_unique_of_nodup_keys {κ α : Type} [DecidableEq κ] {l : List (κ × α)}
    (hnd : (l.map Prod.fst).Nodup) {k : κ} {a b : α}
    (ha : (k, a) ∈ l) (hb : (k, b) ∈ l) : a = b := by
  induction l with
  | nil => simp at ha
  | cons p rest ih =>
    rcases p with ⟨k1, v1⟩
    rw [List.map_cons, List.nodup_cons] at hnd
    have hmapk : ∀ c : α, (k, c) ∈ rest → k ∈ rest.map Prod.fst :=
      fun c hc => List.mem_map.2 ⟨(k, c), hc, rfl⟩
    rcases List.mem_cons.1 ha with ha1 | ha2
    · injection ha1 with hk hv
      rcases List.mem_cons.1 hb with hb1 | hb2
      · injection hb1 with hk2 hv2
        rw [hv, hv2]
      · exact absurd (hk ▸ hmapk b hb2) hnd.1
    · rcases List.mem_cons.1 hb with hb1 | hb2
      · injection hb1 with hk hv
        exact absurd (hk ▸ hmapk a ha2) hnd.1
      · exact ih hnd.2 ha2 hb2

theorem mem_keys_filter {κ α : Type} [DecidableEq κ] {k : κ} {e : α} {l : List (κ × α)}
    {p : κ × α → Bool} (hl : assocLookup k l = some e) (hp : p (k, e) = true) :
    k ∈ (l.filter p).map Prod.fst :=
  List.mem_map.2 ⟨(k, e), List.mem_filter.2 ⟨assocLookup_mem hl, hp⟩, rfl⟩

theorem not_mem_keys_filter {κ α : Type} [DecidableEq κ] {k : κ} {e : α} {l : List (κ × α)}
    {p : κ × α → Bool} (hnd : (l.map Prod.fst).Nodup)
    (hl : assocLookup k l = some e) (hp : p (k, e) = false) :
    k ∉ (l.filter p).map Prod.fst := by
  intro hmem
  rcases List.mem_map.1 hmem with ⟨q, hq, hqk⟩
  rcases List.mem_filter.1 hq with ⟨hql, hqp⟩
  have hqe : q = (k, q.2) := by
    rw [← hqk]
  rw [hqe] at hql hqp
  have : q.2 = e := mem_unique_of_nodup_keys hnd hql (assocLookup_mem hl)
  rw [this] at hqp
  rw [hp] at hqp
  exact Bool.false_ne_true hqp

/-! ### JavaScript runtime values -/

/-- The JavaScript values that flow through the cache, as far as the cache
inspects them: `vNull` stands for both `null` and `undefined` (the two values
`_.isNil` accepts); numbers, booleans and strings are carried so that
JavaScript truthiness is observable; everything else the cache treats
opaquely and behaves like a (truthy) non-empty value. -/
inductive JsVal : Type where
  | vNull : JsVal
  | vBool : Bool → JsVal
  | vNum : Int → JsVal
  | vStr : String → JsVal
deriving DecidableEq, Repr

/-- `_.isNil(v)`: true exactly for `null`/`undefined`. -/
def isNil : JsVal → Bool
  | .vNull => true
  | _ => false

/-- JavaScript boolean coercion of a value (the `if (levelOneCache[param])`
guard): `null`/`undefined`, `false`, `0` and the empty string are falsy. -/
def truthy : JsVal → Bool
  | .vNull => false
  | .vBool b => b
  | .vNum n => decide (n ≠ 0)
  | .vStr s => decide (s ≠ "")

/-- JavaScript truthiness of an optional number (the `if (ttlSeconds)` and
`if (ttl && createdAt)` guards): `undefined` and `0` are falsy. -/
def jsTruthyNat : Option Nat → Bool
  | none => false
  | some n => decide (n ≠ 0)

/-! ### CacheService data model (src/libs/CacheService.ts) -/

/-- `L1TTL = { createdAt: number; ttl: number }` (CacheService.ts line 14). -/
structure L1TTL : Type where
  createdAt : Nat
  ttl : Nat
deriving DecidableEq, Repr

/-- `CacheServiceEvent = { event, param, value? } & Partial<L1TTL>`
(CacheService.ts lines 15-19); `param` is the serialized cache key. -/
structure CacheServiceEvent : Type where
  event : String
  param : String
  value : Option JsVal := none
  createdAt : Option Nat := none
  ttl : Option Nat := none
deriving DecidableEq, Repr

/-- The module-level L1 state: `levelOneCache` and `levelOneCacheTTL`
(CacheService.ts lines 29-30). -/
structure L1State : Type where
  levelOneCache : List (String × JsVal)
  levelOneCacheTTL : List (String × L1TTL)
deriving DecidableEq, Repr

/-- The shared Redis key-value store: decoded values plus the native TTLs
registered via `expire`. -/
structure RedisKV : Type where
  data : List (String × JsVal)
  expires : List (String × Nat)
deriving DecidableEq, Repr

/-- One replica's view: its local L1 maps plus the shared store. -/
structure CacheSystem : Type where
  l1 : L1State
  store : RedisKV
deriving DecidableEq, Repr

/-- `getCacheServiceKey` (CacheService.ts line 38): the fixed L2 namespace. -/
def getCacheServiceKey (key : String) : String := "CacheService:" ++ key

/-- Redis `SET key value` (also discards any TTL the key had). -/
def kvSet (kv : RedisKV) (k : String) (v : JsVal) : RedisKV :=
  { data := assocInsert k v kv.data, expires := assocErase k kv.expires }

/-- Redis `EXPIRE key seconds`. -/
def kvExpire (kv : RedisKV) (k : String) (t : Nat) : RedisKV :=
  if (assocLookup k kv.data).isSome then
    { kv with expires := assocInsert k t kv.expires }
  else kv

/-- Redis `DEL key`. -/
def kvDel (kv : RedisKV) (k : String) : RedisKV :=
  { data := assocErase k kv.data, expires := assocErase k kv.expires }

/-- `CacheServiceEvents` (CacheService.ts lines 22-25). -/
def CacheServiceEvents_REST : String := "REST"

def CacheServiceEvents_L1_UPDATE : String := "L1_UPDATE"

/-- The body of the `redisSub.on('message', ...)` handler
(CacheService.ts lines 56-79), applied to an already-parsed event.
The `REST` branch deletes the local L1 entry only under the truthiness guard
`if (levelOneCache[param])`, then deletes the namespaced store key; the
`L1_UPDATE` branch overwrites the local L1 entry and records TTL metadata
only under the guard `if (ttl && createdAt)`. -/
def handleEvent (ev : CacheServiceEvent) (s : CacheSystem) : CacheSystem :=
  let s1 :=
    if ev.event = CacheServiceEvents_REST then
      let l1a :=
        if truthy ((assocLookup ev.param s.l1.levelOneCache).getD .vNull) then
          { levelOneCache := assocErase ev.param s.l1.levelOneCache,
            levelOneCacheTTL := assocErase ev.param s.l1.levelOneCacheTTL : L1State }
        else s.l1
      { l1 := l1a, store := kvDel s.store (getCacheServiceKey ev.param) }
    else s
  if ev.event = CacheServiceEvents_L1_UPDATE then
    { s1 with
      l1 :=
        { levelOneCache := assocInsert ev.param (ev.value.getD .vNull) s1.l1.levelOneCache,
          levelOneCacheTTL :=
            if jsTruthyNat ev.ttl && jsTruthyNat ev.createdAt then
              assocInsert ev.param
                { createdAt := ev.createdAt.getD 0, ttl := ev.ttl.getD 0 }
                s1.l1.levelOneCacheTTL
            else s1.l1.levelOneCacheTTL } }
  else s1

/-- The full `message` handler including the initial
`JSON.parse(message)` (CacheService.ts line 58).  A wire payload that fails
to parse is represented by `none`; the handler body has no `try`/`catch`, so
the parse failure escapes the handler (`Except.error`). -/
def handleMessage (msg : Option CacheServiceEvent) (s : CacheSystem) :
    Except Unit CacheSystem :=
  match msg with
  | none => Except.error ()
  | some ev => Except.ok (handleEvent ev s)

/-- Deliver a sequence of broadcast events to one replica, in order. -/
def applyEvents (evs : List CacheServiceEvent) (s : CacheSystem) : CacheSystem :=
  evs.foldl (fun acc ev => handleEvent ev acc) s

/-- The event published by `reset(param)` (CacheService.ts lines 95-97). -/
def resetEvent (param : String) : CacheServiceEvent :=
  { event := CacheServiceEvents_REST, param := param }

/-- Outcome of one invocation of an `L1` lazy getter: the returned value, how
many times the provider ran, and the events published on the broadcast
channel (the getter itself never touches the local maps — only the
subscriber does, on receipt). -/
structure L1CallOut : Type where
  value : JsVal
  providerCalls : Nat
  published : List CacheServiceEvent
deriving DecidableEq, Repr

/-- One invocation of the getter returned by `L1(param, provider, ttlSeconds)`
(CacheService.ts lines 99-132): look up the serialized key in
`levelOneCache`; on a nil result call the provider; publish an `L1_UPDATE`
event when the provider's result is non-nil, carrying `createdAt`/`ttl`
exactly when `if (ttlSeconds)` is truthy; return the value just computed. -/
def L1getter (provider : String → JsVal) (ttlSeconds : Option Nat) (now : Nat)
    (l1 : L1State) (key : String) : L1CallOut :=
  let v0 := (assocLookup key l1.levelOneCache).getD .vNull
  if isNil v0 then
    let v := provider key
    if isNil v then
      { value := v, providerCalls := 1, published := [] }
    else if jsTruthyNat ttlSeconds then
      { value := v, providerCalls := 1,
        published :=
          [{ event := CacheServiceEvents_L1_UPDATE, param := key, value := some v,
             createdAt := some now, ttl := ttlSeconds }] }
    else
      { value := v, providerCalls := 1,
        published :=
          [{ event := CacheServiceEvents_L1_UPDATE, param := key, value := some v }] }
  else
    { value := v0, providerCalls := 0, published := [] }

/-- Outcome of one invocation of an `L2` lazy getter. -/
structure L2CallOut : Type where
  value : JsVal
  providerCalls : Nat
  store : RedisKV
deriving DecidableEq, Repr

/-- One invocation of the getter returned by `L2(param, provider, ttlSeconds)`
(CacheService.ts lines 138-156): `get` the namespaced key; on nil call the
provider, `set` (and `expire` when `if (ttlSeconds)` is truthy) only when the
result is non-nil, and return it; on a hit return the parsed stored value. -/
def L2getter (provider : String → JsVal) (ttlSeconds : Option Nat)
    (store : RedisKV) (key : String) : L2CallOut :=
  let rkey := getCacheServiceKey key
  match assocLookup rkey store.data with
  | none =>
    let v := provider key
    if isNil v then
      { value := v, providerCalls := 1, store := store }
    else if jsTruthyNat ttlSeconds then
      { value := v, providerCalls := 1,
        store := kvExpire (kvSet store rkey v) rkey (ttlSeconds.getD 0) }
    else
      { value := v, providerCalls := 1, store := kvSet store rkey v }
  | some v => { value := v, providerCalls := 0, store := store }

/-- The `CacheService:CacheChecker` sweep (CacheService.ts lines 81-92):
collect the keys of `levelOneCacheTTL` whose `createdAt + ttl*1000 < now`,
then delete each from both the value map and the TTL index. -/
def cacheChecker (now : Nat) (st : L1State) : L1State :=
  let expiredKeys :=
    (st.levelOneCacheTTL.filter
      (fun p => decide (p.2.createdAt + p.2.ttl * 1000 < now))).map Prod.fst
  expiredKeys.foldl
    (fun acc k =>
      { levelOneCache := assocErase k acc.levelOneCache,
        levelOneCacheTTL := assocErase k acc.levelOneCacheTTL })
    st

/-- `createCache(key, cb)` (CacheService.ts lines 162-168): run the thunk and
`set` the namespaced key to its serialized result — but only when that result
is non-nil (`if (!_.isNil(cacheData))`). -/
def createCache (store : RedisKV) (key : String) (cbResult : JsVal) : RedisKV :=
  if isNil cbResult then store
  else kvSet store (getCacheServiceKey key) cbResult

/-- The argument `updateCache` hands to its updater:
`JSON.parse(currentDataStr ?? 'null') ?? undefined` — the decoded stored
value, or `none` when the key is absent (or holds a nil value). -/
def currentOf (store : RedisKV) (key : String) : Option JsVal :=
  let cur := (assocLookup (getCacheServiceKey key) store.data).getD .vNull
  if isNil cur then none else some cur

/-- `updateCache(key, cb)` (CacheService.ts lines 170-179): `get` the current
value, call the updater on it, and `set` the serialized result back exactly
when the updater's result is non-nil. -/
def updateCache (store : RedisKV) (key : String) (cb : Option JsVal → JsVal) : RedisKV :=
  let cacheData := cb (currentOf store key)
  if isNil cacheData then store
  else kvSet store (getCacheServiceKey key) cacheData

def emptyL1 : L1State := { levelOneCache := [], levelOneCacheTTL := [] }

def emptyKV : RedisKV := { data := [], expires := [] }

def emptySystem : CacheSystem := { l1 := emptyL1, store := emptyKV }

/-! ### RedisClient hash counters (RedisClient.ts) -/

/-- The Redis hash-counter key space: `(counterName, field) → integer`.
A missing field reads as `0`, as `HINCRBY` initialises it. -/
def CounterStore : Type := List ((String × String) × Int)

/-- Redis `HINCRBY counterName field step`: one atomic add, returning the new
value. -/
def hincrby (store : CounterStore) (counterName field : String) (step : Int) :
    CounterStore × Int :=
  let v := ((assocLookup (counterName, field) store).getD 0) + step
  (assocInsert (counterName, field) v store, v)

/-- `increaseCounter(counterName, name, step)` (RedisClient.ts):
`this.redis.hincrby(counterName, name, step)`. -/
def increaseCounter (store : CounterStore) (counterName name : String) (step : Int) :
    CounterStore × Int :=
  hincrby store counterName name step

/-- `decreaseCounter(counterName, name, step)` (RedisClient.ts):
`this.redis.hincrby(counterName, name, 0 - step)`. -/
def decreaseCounter (store : CounterStore) (counterName name : String) (step : Int) :
    CounterStore × Int :=
  hincrby store counterName name (0 - step)

/-- One client call in an interleaved history of counter operations. -/
inductive CounterOp : Type where
  | inc : String → String → Int → CounterOp
  | dec : String → String → Int → CounterOp
deriving DecidableEq, Repr

/-- Apply one call; each call is a single atomic `HINCRBY`, so an interleaved
concurrent history linearises to this sequential application. -/
def applyCounterOp (store : CounterStore) : CounterOp → CounterStore
  | .inc c f s => (increaseCounter store c f s).1
  | .dec c f s => (decreaseCounter store c f s).1

def applyCounterOps (store : CounterStore) (ops : List CounterOp) : CounterStore :=
  ops.foldl applyCounterOp store

/-- The signed contribution of one call to a given counter field. -/
def signedStep (counterName field : String) : CounterOp → Int
  | .inc c f s => if c = counterName ∧ f = field then s else 0
  | .dec c f s => if c = counterName ∧ f = field then -s else 0

/-- The net sum of the signed steps a history applies to one field. -/
def netDelta (counterName field : String) (ops : List CounterOp) : Int :=
  (ops.map (signedStep counterName field)).sum

/-- The current value of a counter field (missing reads as 0). -/
def counterValue (store : CounterStore) (counterName field : String) : Int :=
  (assocLookup (counterName, field) store).getD 0

/-! ### FmkTimer (Timer.ts) -/

/-- One per-interval bucket: the underlying `setInterval` handle, abstracted
to whether it is still running (`clearInterval` not yet called on it), plus
the named handler map.  Callbacks are abstracted to identifiers. -/
structure TimerBucket : Type where
  live : Bool
  handlers : List (String × Nat)
deriving DecidableEq, Repr

/-- `FmkTimer.timer : Record<string, [NodeJS.Timeout, Handlers]>`, keyed by
the interval in milliseconds (`interval * 1000`). -/
structure FmkTimer : Type where
  timer : List (Nat × TimerBucket)
deriving DecidableEq, Repr

/-- `FmkTimer.stop()` (Timer.ts): `clearInterval` every stored handle.  The
map entries themselves are not removed. -/
def FmkTimer.stop (t : FmkTimer) : FmkTimer :=
  { timer := t.timer.map (fun p => (p.1, { p.2 with live := false })) }

/-- `FmkTimer.onTimer(name, callback, interval)` (Timer.ts): when no bucket
exists for `interval * 1000`, `start` creates one with a fresh running
`setInterval`; then the named callback is stored into the bucket.  When a
bucket already exists — even one whose interval was cleared by `stop()` —
no new timer is started. -/
def FmkTimer.onTimer (t : FmkTimer) (name : String) (cb : Nat) (interval : Nat) :
    FmkTimer :=
  let time := interval * 1000
  match assocLookup time t.timer with
  | none => { timer := assocInsert time { live := true, handlers := [(name, cb)] } t.timer }
  | some bkt =>
    { timer :=
        assocInsert time { live := bkt.live, handlers := assocInsert name cb bkt.handlers }
          t.timer }

/-- One tick of the underlying interval timer for `time` milliseconds: it
fires only while the `setInterval` is still running, and then invokes every
registered handler of that bucket (via the `TIME_EVENT#...` listener).
Returns the callbacks invoked. -/
def FmkTimer.tick (t : FmkTimer) (time : Nat) : List Nat :=
  match assocLookup time t.timer with
  | some bkt => if bkt.live then bkt.handlers.map Prod.snd else []
  | none => []

/-! ### Leader election lock (src/libs/leader/Leader.ts) -/

/-- The events a `Leader` emits (`LeaderEvents`, Leader.ts lines 129-138). -/
inductive LeaderEvent : Type where
  | elected : LeaderEvent
  | revoked : LeaderEvent
  | error : LeaderEvent
deriving DecidableEq, Repr

/-- One `Leader` instance: its random id, configured `ttl` and `wait`
(milliseconds), the events it has emitted in order, the renewal interval
timer (`renewId`, armed at `ttl/2` — kept as an exact rational since
JavaScript divides floats), and the one-shot election retry timer
(`electId`, armed at `wait`). -/
structure LeaderState : Type where
  id : String
  ttl : Nat
  wait : Nat
  events : List LeaderEvent
  renewTimer : Option ℚ
  electTimer : Option Nat
deriving DecidableEq, Repr

/-- A freshly constructed, configured `Leader` that has not yet elected. -/
def leaderInit (id : String) (ttl wait : Nat) : LeaderState :=
  { id := id, ttl := ttl, wait := wait, events := [], renewTimer := none,
    electTimer := none }

/-- The shared lock record plus one instance: the store holds
`none` (key absent) or `some (holderId, pttlMs)`. -/
structure LeaderSys : Type where
  store : Option (String × Nat)
  st : LeaderState
deriving DecidableEq, Repr

/-- `SET key id PX ttl NX` (Leader.ts line 285): atomically set the key only
if absent; returns the new store content and the reply (`'OK'` on success,
`null` when the key was already held). -/
def setNxPx (store : Option (String × Nat)) (id : String) (ttl : Nat) :
    Option (String × Nat) × Option String :=
  match store with
  | none => (some (id, ttl), some "OK")
  | some h => (some h, none)

/-- One Redis round trip whose transport may fail: `fails = true` embeds the
rejected promise (`throw`), `false` the reply `a`. -/
def rcall {α : Type} (fails : Bool) (a : α) : Except Unit α :=
  if fails then Except.error () else Except.ok a

/-- `Leader.isLeader()` (Leader.ts lines 226-234): `get` the lock key and
compare with the own id; its own `catch` emits `error` and returns `false`.
`getFails` injects a thrown store error into the `get`. -/
def isLeaderOp (getFails : Bool) (sys : LeaderSys) : Bool × LeaderSys :=
  match rcall getFails (sys.store.map Prod.fst) with
  | Except.ok stored => (stored == some sys.st.id, sys)
  | Except.error _ =>
    (false,
     { sys with st := { sys.st with events := sys.st.events ++ [LeaderEvent.error] } })

/-- `Leader.elect()` (Leader.ts lines 282-301): one atomic `SET ... NX`; on a
non-null reply emit `elected` and arm the renewal interval at `ttl/2`; on a
null reply schedule a one-shot retry after `wait`; a thrown store error is
caught and emitted as `error`. -/
def electOp (setFails : Bool) (sys : LeaderSys) : LeaderSys :=
  match rcall setFails (setNxPx sys.store sys.st.id sys.st.ttl) with
  | Except.error _ =>
    { sys with st := { sys.st with events := sys.st.events ++ [LeaderEvent.error] } }
  | Except.ok (store1, res) =>
    if res ≠ none then
      { store := store1,
        st := { sys.st with
                events := sys.st.events ++ [LeaderEvent.elected],
                renewTimer := some ((sys.st.ttl : ℚ) / 2) } }
    else
      { store := store1, st := { sys.st with electTimer := some sys.st.wait } }

/-- `Leader.renew()` (Leader.ts lines 248-265): re-check `isLeader()`; while
still holder, `pexpire` the key back to `ttl`; otherwise cancel the renewal
interval, schedule a retry after `wait`, and emit `revoked`.  A thrown
`pexpire` error is caught by `renew`'s own `catch` and emitted as `error`;
a thrown `get` error is already caught inside `isLeader`, which then returns
`false`. -/
def renewOp (getFails pexpireFails : Bool) (sys : LeaderSys) : LeaderSys :=
  let r := isLeaderOp getFails sys
  if r.1 then
    match rcall pexpireFails () with
    | Except.error _ =>
      { r.2 with st := { r.2.st with events := r.2.st.events ++ [LeaderEvent.error] } }
    | Except.ok _ =>
      { r.2 with store := r.2.store.map (fun h => (h.1, r.2.st.ttl)) }
  else
    { r.2 with st := { r.2.st with
                       renewTimer := none,
                       electTimer := some r.2.st.wait,
                       events := r.2.st.events ++ [LeaderEvent.revoked] } }

/-- `Leader.stop()` (Leader.ts lines 315-330): if still holder, `del` the key
and emit `revoked`, then clear both timers; a thrown `del` error jumps to the
`catch` (emitting `error`) before the `clearInterval`/`clearTimeout` lines
run, so the timers survive. -/
def stopOp (getFails delFails : Bool) (sys : LeaderSys) : LeaderSys :=
  let r := isLeaderOp getFails sys
  if r.1 then
    match rcall delFails () with
    | Except.error _ =>
      { r.2 with st := { r.2.st with events := r.2.st.events ++ [LeaderEvent.error] } }
    | Except.ok _ =>
      { store := none,
        st := { r.2.st with
                events := r.2.st.events ++ [LeaderEvent.revoked],
                renewTimer := none, electTimer := none } }
  else
    { r.2 with st := { r.2.st with renewTimer := none, electTimer := none } }

/-! ### Concrete states used by witnesses and counterexamples -/

def timerT : FmkTimer := { timer := [(1000, { live := true, handlers := [("svc", 1)] })] }

/-- A replica state in which key `"k"` was populated — through the real
publish/subscribe pipeline — with the falsy (but non-nil) value `0` and a
one-second TTL created at time 5. -/
def sysFalsy : CacheSystem :=
  applyEvents (L1getter (fun _ => JsVal.vNum 0) (some 1) 5 emptyL1 "k").published
    emptySystem

/-- A small L1 state with one TTL-indexed entry (`ttl = 1`, created at 0). -/
def st7 : L1State :=
  { levelOneCache := [("k", JsVal.vNum 5)],
    levelOneCacheTTL := [("k", { createdAt := 0, ttl := 1 })] }

/-- A store already holding a value at the namespaced key for `"x"`. -/
def kv7 : RedisKV := { data := [("CacheService:x", JsVal.vNum 7)], expires := [] }

def sysHold : LeaderSys :=
  { store := some ("me", 10000),
    st := { id := "me", ttl := 10000, wait := 1000, events := [],
            renewTimer := some 5000, electTimer := none } }

/-! ### Auxiliary lemmas -/

theorem assocLookup_stopped (time : Nat) (l : List (Nat × TimerBucket)) :
    assocLookup time
        (l.map (fun p => (p.1, ({ live := false, handlers := p.2.handlers } : TimerBucket)))) =
      (assocLookup time l).map
        (fun b : TimerBucket => ({ live := false, handlers := b.handlers } : TimerBucket)) := by
  induction l with
  | nil => simp [assocLookup]
  | cons p rest ih => by_cases h : time = p.1 <;> simp [assocLookup, h, ih]

theorem counterValue_applyCounterOp (store : CounterStore) (op : CounterOp)
    (counterName field : String) :
    counterValue (applyCounterOp store op) counterName field =
      counterValue store counterName field + signedStep counterName field op := by
  cases op with
  | inc c f s =>
    by_cases h : c = counterName ∧ f = field
    · rcases h with ⟨rfl, rfl⟩
      simp [applyCounterOp, increaseCounter, hincrby, counterValue, signedStep,
        assocLookup_insert_self]
    · have hne : ((counterName, field) : String × String) ≠ (c, f) := by
        intro hc
        cases hc
        exact h ⟨rfl, rfl⟩
      simp [applyCounterOp, increaseCounter, hincrby, counterValue, signedStep, h,
        assocLookup_insert_ne hne]
  | dec c f s =>
    by_cases h : c = counterName ∧ f = field
    · rcases h with ⟨rfl, rfl⟩
      simp [applyCounterOp, decreaseCounter, hincrby, counterValue, signedStep,
        assocLookup_insert_self, sub_eq_add_neg]
    · have hne : ((counterName, field) : String × String) ≠ (c, f) := by
        intro hc
        cases hc
        exact h ⟨rfl, rfl⟩
      simp [applyCounterOp, decreaseCounter, hincrby, counterValue, signedStep, h,
        assocLookup_insert_ne hne]

theorem counterValue_applyCounterOps (store : CounterStore) (ops : List CounterOp)
    (counterName field : String) :
    counterValue (applyCounterOps store ops) counterName field =
      counterValue store counterName field + netDelta counterName field ops := by
  induction ops generalizing store with
  | nil => simp [applyCounterOps, netDelta]
  | cons op rest ih =>
    rw [show applyCounterOps store (op :: rest)
          = applyCounterOps (applyCounterOp store op) rest from rfl,
        ih (applyCounterOp store op), counterValue_applyCounterOp]
    simp [netDelta, add_assoc]

/-! ### Claim theorems -/

/-- C9: every `increaseCounter`/`decreaseCounter` call is a single atomic
`HINCRBY` of `+step` resp. `-step`, so any interleaved history of such calls
leaves each counter field at its initial value plus the exact net sum of the
signed steps (no lost updates), and `decreaseCounter c f s` coincides with
`increaseCounter c f (-s)`. -/
theorem counter_netSum_spec (store : CounterStore) (ops : List CounterOp)
    (counterName field : String) :
    (counterValue (applyCounterOps store ops) counterName field =
      counterValue store counterName field + netDelta counterName field ops) ∧
    (∀ (st : CounterStore) (c f : String) (s : Int),
      decreaseCounter st c f s = increaseCounter st c f (-s)) := by
  refine ⟨counterValue_applyCounterOps store ops counterName field, ?_⟩
  intro st c f s
  simp [decreaseCounter, increaseCounter, zero_sub]

/-- C10: `FmkTimer.stop()` only cancels the underlying interval timers and
leaves the per-interval buckets in the map; a later
`onTimer(name, cb, interval)` for an interval used before `stop()` stores the
callback into the surviving bucket without starting a new underlying timer,
so that callback is never invoked by a tick. -/
theorem timer_stop_spec (t : FmkTimer) (name : String) (cb : Nat) (interval : Nat)
    (bkt : TimerBucket) (hb : assocLookup (interval * 1000) t.timer = some bkt) :
    assocLookup (interval * 1000) (FmkTimer.stop t).timer =
      some { live := false, handlers := bkt.handlers } ∧
    assocLookup (interval * 1000)
        (FmkTimer.onTimer (FmkTimer.stop t) name cb interval).timer =
      some { live := false, handlers := assocInsert name cb bkt.handlers } ∧
    FmkTimer.tick (FmkTimer.onTimer (FmkTimer.stop t) name cb interval)
      (interval * 1000) = [] := by
  have h1 : assocLookup (interval * 1000) (FmkTimer.stop t).timer =
      some { live := false, handlers := bkt.handlers } := by
    simp [FmkTimer.stop, assocLookup_stopped, hb]
  refine ⟨h1, ?_, ?_⟩
  · simp [FmkTimer.onTimer, h1, assocLookup_insert_self]
  · simp [FmkTimer.tick, FmkTimer.onTimer, h1, assocLookup_insert_self]

/-- C10 witness: a concrete timer with a 1-second bucket, stopped, then given
a new named callback for the same interval. -/
theorem timer_stop_spec_witness :
    (assocLookup (1 * 1000) timerT.timer =
      some { live := true, handlers := [("svc", 1)] }) ∧
    (assocLookup (1 * 1000) (FmkTimer.stop timerT).timer =
      some { live := false, handlers := [("svc", 1)] } ∧
    assocLookup (1 * 1000)
        (FmkTimer.onTimer (FmkTimer.stop timerT) "late" 2 1).timer =
      some { live := false, handlers := assocInsert "late" 2 [("svc", 1)] } ∧
    FmkTimer.tick (FmkTimer.onTimer (FmkTimer.stop timerT) "late" 2 1) (1 * 1000) = []) :=
  ⟨by decide, timer_stop_spec timerT "late" 2 1 { live := true, handlers := [("svc", 1)] }
    (by decide)⟩

/-- C1: two `Leader` instances with distinct ids racing `elect()` on an
initially absent lock key, serialized by the store's atomic `SET NX PX`:
the first set succeeds (`'OK'`), so that instance emits `elected` and arms
its renewal interval at `ttl/2` with no retry scheduled; the second set
returns `null`, so that instance emits nothing and schedules a one-shot
retry after `wait`; the store ends holding exactly the winner's id. -/
theorem elect_race_spec (id1 id2 : String) (t1 w1 t2 w2 : Nat) (_hne : id1 ≠ id2) :
    (setNxPx none id1 t1).2 = some "OK" ∧
    electOp false { store := none, st := leaderInit id1 t1 w1 } =
      { store := some (id1, t1),
        st := { leaderInit id1 t1 w1 with
                events := [LeaderEvent.elected],
                renewTimer := some ((t1 : ℚ) / 2) } } ∧
    (setNxPx (electOp false { store := none, st := leaderInit id1 t1 w1 }).store
        id2 t2).2 = none ∧
    electOp false
        { store := (electOp false { store := none, st := leaderInit id1 t1 w1 }).store,
          st := leaderInit id2 t2 w2 } =
      { store := some (id1, t1),
        st := { leaderInit id2 t2 w2 with electTimer := some w2 } } := by
  simp [electOp, rcall, setNxPx, leaderInit]

/-- C1 witness: two concrete instances with ids `a` and `b` and the default
`ttl = 10000`, `wait = 1000`. -/
theorem elect_race_spec_witness :
    ("a" : String) ≠ "b" ∧
    ((setNxPx none "a" 10000).2 = some "OK" ∧
     electOp false { store := none, st := leaderInit "a" 10000 1000 } =
       { store := some ("a", 10000),
         st := { leaderInit "a" 10000 1000 with
                 events := [LeaderEvent.elected],
                 renewTimer := some ((10000 : ℚ) / 2) } } ∧
     (setNxPx (electOp false { store := none, st := leaderInit "a" 10000 1000 }).store
         "b" 10000).2 = none ∧
     electOp false
         { store := (electOp false { store := none, st := leaderInit "a" 10000 1000 }).store,
           st := leaderInit "b" 10000 1000 } =
       { store := some ("a", 10000),
         st := { leaderInit "b" 10000 1000 with electTimer := some 1000 } }) :=
  ⟨by decide, elect_race_spec "a" "b" 10000 1000 10000 1000 (by decide)⟩

/-- C5 (amended): every store-operation error during the Leader's `elect`,
`renew`, `isLeader` or `stop` is caught and surfaces only as an `error`
event, never propagating to the caller; a thrown `pexpire` during `renew`
(with the holder check having confirmed leadership) forces no state
transition — no `revoked`, renewal timer and retry timer untouched; but a
thrown `get` during `renew` is caught inside `isLeader`, which then reports
`false`, so `renew` does transition: it emits `revoked`, cancels the renewal
interval and schedules a retry after `wait`, even though no different holder
id was observed. -/
theorem leader_error_spec (sys : LeaderSys)
    (hold : sys.store.map Prod.fst = some sys.st.id) :
    (electOp true sys =
      { sys with st := { sys.st with events := sys.st.events ++ [LeaderEvent.error] } }) ∧
    (isLeaderOp true sys =
      (false,
       { sys with st := { sys.st with events := sys.st.events ++ [LeaderEvent.error] } })) ∧
    (stopOp false true sys =
      { sys with st := { sys.st with events := sys.st.events ++ [LeaderEvent.error] } }) ∧
    (renewOp false true sys =
      { sys with st := { sys.st with events := sys.st.events ++ [LeaderEvent.error] } }) ∧
    (renewOp true false sys =
      { sys with st := { sys.st with
          events := sys.st.events ++ [LeaderEvent.error, LeaderEvent.revoked],
          renewTimer := none,
          electTimer := some sys.st.wait } }) := by
  refine ⟨rfl, rfl, ?_, ?_, ?_⟩
  · simp [stopOp, isLeaderOp, rcall, hold]
  · simp [renewOp, isLeaderOp, rcall, hold]
  · simp [renewOp, isLeaderOp, rcall]

/-- C5 witness: the concrete holder instance `sysHold` (its own id is stored). -/
theorem leader_error_spec_witness :
    (sysHold.store.map Prod.fst = some sysHold.st.id) ∧
    ((electOp true sysHold =
      { sysHold with
        st := { sysHold.st with events := sysHold.st.events ++ [LeaderEvent.error] } }) ∧
    (isLeaderOp true sysHold =
      (false,
       { sysHold with
         st := { sysHold.st with events := sysHold.st.events ++ [LeaderEvent.error] } })) ∧
    (stopOp false true sysHold =
      { sysHold with
        st := { sysHold.st with events := sysHold.st.events ++ [LeaderEvent.error] } }) ∧
    (renewOp false true sysHold =
      { sysHold with
        st := { sysHold.st with events := sysHold.st.events ++ [LeaderEvent.error] } }) ∧
    (renewOp true false sysHold =
      { sysHold with st := { sysHold.st with
          events := sysHold.st.events ++ [LeaderEvent.error, LeaderEvent.revoked],
          renewTimer := none,
          electTimer := some sysHold.st.wait } })) :=
  ⟨by decide, leader_error_spec sysHold (by decide)⟩

/-- C5 counterexample to the claim as stated: `sysHold`'s own id is still the
stored holder, yet a bare thrown `get` during `renew` makes it emit
`revoked`, cancel the renewal interval and schedule a retry — a forced state
transition without the `isLeader()` comparison observing a different holder. -/
theorem leader_error_cex :
    (renewOp true false sysHold).st.events = [LeaderEvent.error, LeaderEvent.revoked] ∧
    (renewOp true false sysHold).st.renewTimer = none ∧
    (renewOp true false sysHold).st.electTimer = some 1000 ∧
    sysHold.store.map Prod.fst = some sysHold.st.id := by
  refine ⟨rfl, rfl, rfl, rfl⟩

theorem isNil_vNull : isNil JsVal.vNull = true := rfl

theorem kvExpire_data (kv : RedisKV) (k : String) (t : Nat) :
    (kvExpire kv k t).data = kv.data := by
  by_cases h : (assocLookup k kv.data).isSome <;> simp [kvExpire, h]

theorem foldl_eraseBoth (ks : List String) (c : List (String × JsVal))
    (t : List (String × L1TTL)) :
    ks.foldl
        (fun acc k =>
          ({ levelOneCache := assocErase k acc.levelOneCache,
             levelOneCacheTTL := assocErase k acc.levelOneCacheTTL } : L1State))
        { levelOneCache := c, levelOneCacheTTL := t } =
      { levelOneCache := ks.foldl (fun m k => assocErase k m) c,
        levelOneCacheTTL := ks.foldl (fun m k => assocErase k m) t } := by
  induction ks generalizing c t with
  | nil => rfl
  | cons k0 rest ih => simp [List.foldl_cons, ih]

/-- C4 (amended): a broadcast payload that parses as JSON is processed by the
subscriber's message handler without throwing; but the handler body has no
catch, so a payload that is not valid JSON raises an error that escapes the
handler instead of being logged and skipped. -/
theorem message_handler_spec :
    (∀ (ev : CacheServiceEvent) (s : CacheSystem),
      handleMessage (some ev) s = Except.ok (handleEvent ev s)) ∧
    (∀ s : CacheSystem, handleMessage none s = Except.error ()) :=
  ⟨fun _ _ => rfl, fun _ => rfl⟩

/-- C4 counterexample: a payload that fails `JSON.parse` makes the subscriber
handler throw (`Except.error`) rather than catch-log-continue. -/
theorem message_handler_cex : handleMessage none emptySystem = Except.error () := rfl

/-- C3 (amended): processing the `Reset` event for key K always deletes the
namespaced key from the shared store; the local L1 entry and TTL-index entry
are deleted only when the cached value is truthy — when a falsy value (such
as `0`, `false` or `''`) was cached, the truthiness guard skips the local
deletion and the entry survives the reset. -/
theorem reset_spec (s : CacheSystem) (k : String) :
    (assocLookup (getCacheServiceKey k)
        (handleEvent (resetEvent k) s).store.data = none) ∧
    (truthy ((assocLookup k s.l1.levelOneCache).getD .vNull) = true →
      assocLookup k (handleEvent (resetEvent k) s).l1.levelOneCache = none ∧
      assocLookup k (handleEvent (resetEvent k) s).l1.levelOneCacheTTL = none) ∧
    (truthy ((assocLookup k s.l1.levelOneCache).getD .vNull) = false →
      (handleEvent (resetEvent k) s).l1 = s.l1) := by
  refine ⟨?_, ?_, ?_⟩
  · simp [handleEvent, resetEvent, CacheServiceEvents_REST,
      CacheServiceEvents_L1_UPDATE, kvDel, assocLookup_erase]
  · intro ht
    simp [handleEvent, resetEvent, CacheServiceEvents_REST,
      CacheServiceEvents_L1_UPDATE, ht, assocLookup_erase]
  · intro ht
    simp [handleEvent, resetEvent, CacheServiceEvents_REST,
      CacheServiceEvents_L1_UPDATE, ht]

/-- C3 witness: resetting a key cached with the truthy value 5. -/
theorem reset_spec_witness :
    (truthy ((assocLookup "k" st7.levelOneCache).getD .vNull) = true) ∧
    ((assocLookup (getCacheServiceKey "k")
        (handleEvent (resetEvent "k")
          { l1 := st7, store := kv7 }).store.data = none) ∧
    (truthy ((assocLookup "k"
        ({ l1 := st7, store := kv7 } : CacheSystem).l1.levelOneCache).getD .vNull) = true →
      assocLookup "k"
        (handleEvent (resetEvent "k") { l1 := st7, store := kv7 }).l1.levelOneCache = none ∧
      assocLookup "k"
        (handleEvent (resetEvent "k") { l1 := st7, store := kv7 }).l1.levelOneCacheTTL = none) ∧
    (truthy ((assocLookup "k"
        ({ l1 := st7, store := kv7 } : CacheSystem).l1.levelOneCache).getD .vNull) = false →
      (handleEvent (resetEvent "k") { l1 := st7, store := kv7 }).l1 =
        ({ l1 := st7, store := kv7 } : CacheSystem).l1)) :=
  ⟨by decide, reset_spec { l1 := st7, store := kv7 } "k"⟩

/-- C3 counterexample: key `"k"` holds the falsy value `0` (populated through
the real broadcast pipeline); after the reset event is processed, the local
value map and TTL index still contain the key, contradicting the claim that
reset clears L1 regardless of the cached value. -/
theorem reset_cex :
    assocLookup "k" sysFalsy.l1.levelOneCache = some (JsVal.vNum 0) ∧
    assocLookup "k" sysFalsy.l1.levelOneCacheTTL = some { createdAt := 5, ttl := 1 } ∧
    assocLookup "k" (handleEvent (resetEvent "k") sysFalsy).l1.levelOneCache =
      some (JsVal.vNum 0) ∧
    assocLookup "k" (handleEvent (resetEvent "k") sysFalsy).l1.levelOneCacheTTL =
      some { createdAt := 5, ttl := 1 } := by
  refine ⟨rfl, rfl, rfl, rfl⟩

/-- C6 (amended): on an L1 miss the getter returns the provider's result
directly (without waiting for its broadcast to be applied to the local map,
which it never touches); when that result is non-nil it publishes exactly one
`L1_UPDATE` event carrying the serialized key and the value, whose
`createdAt`/`ttl` fields are present exactly when `ttlSeconds` is given and
nonzero (JavaScript truthiness) — a given `ttlSeconds = 0` is falsy and
produces an event without TTL metadata; when the result is nil nothing is
published and hence nothing is cached anywhere. -/
theorem l1_publish_spec (provider : String → JsVal) (ttlSeconds : Option Nat)
    (now : Nat) (l1 : L1State) (key : String)
    (hmiss : isNil ((assocLookup key l1.levelOneCache).getD .vNull) = true) :
    (L1getter provider ttlSeconds now l1 key).value = provider key ∧
    (L1getter provider ttlSeconds now l1 key).providerCalls = 1 ∧
    (isNil (provider key) = false →
      (L1getter provider ttlSeconds now l1 key).published =
        [{ event := CacheServiceEvents_L1_UPDATE, param := key,
           value := some (provider key),
           createdAt := if jsTruthyNat ttlSeconds then some now else none,
           ttl := if jsTruthyNat ttlSeconds then ttlSeconds else none }]) ∧
    (isNil (provider key) = true →
      (L1getter provider ttlSeconds now l1 key).published = []) := by
  by_cases hv : isNil (provider key) <;> by_cases ht : jsTruthyNat ttlSeconds <;>
    simp [L1getter, hmiss, hv, ht]

/-- C6 witness: a miss on the empty map with provider result 42 and
`ttlSeconds = 3`. -/
theorem l1_publish_spec_witness :
    (isNil ((assocLookup "k" emptyL1.levelOneCache).getD .vNull) = true) ∧
    ((L1getter (fun _ => JsVal.vNum 42) (some 3) 7 emptyL1 "k").value =
      (fun _ => JsVal.vNum 42) "k" ∧
    (L1getter (fun _ => JsVal.vNum 42) (some 3) 7 emptyL1 "k").providerCalls = 1 ∧
    (isNil ((fun _ => JsVal.vNum 42) "k") = false →
      (L1getter (fun _ => JsVal.vNum 42) (some 3) 7 emptyL1 "k").published =
        [{ event := CacheServiceEvents_L1_UPDATE, param := "k",
           value := some ((fun _ => JsVal.vNum 42) "k"),
           createdAt := if jsTruthyNat (some 3) then some 7 else none,
           ttl := if jsTruthyNat (some 3) then some 3 else none }]) ∧
    (isNil ((fun _ => JsVal.vNum 42) "k") = true →
      (L1getter (fun _ => JsVal.vNum 42) (some 3) 7 emptyL1 "k").published = [])) :=
  ⟨by decide, l1_publish_spec (fun _ => JsVal.vNum 42) (some 3) 7 emptyL1 "k" (by decide)⟩

/-- C6 counterexample: `ttlSeconds = 0` IS given, yet the published event
carries neither `createdAt` nor `ttl` (the `if (ttlSeconds)` guard treats 0
as falsy), contradicting "included if and only if ttlSeconds was given". -/
theorem l1_publish_cex :
    (L1getter (fun _ => JsVal.vNum 7) (some 0) 5 emptyL1 "k").published =
      [{ event := CacheServiceEvents_L1_UPDATE, param := "k",
         value := some (JsVal.vNum 7), createdAt := none, ttl := none }] := rfl

/-- C2 (amended): for a key not yet cached and a provider whose result is
non-nil, the first getter call (L1 or L2) invokes the provider exactly once
and returns its result; once the resulting update has reached the local
replica (L1: the self-broadcast processed by the subscriber; L2: the `set`
applied to the shared store), a second call before any expiry or reset
returns the same result with zero further provider invocations.  A nil
provider result is not cached, so for it the second call invokes the
provider again (see the counterexample). -/
theorem read_through_spec (provider : String → JsVal) (ttlSeconds : Option Nat)
    (now now2 : Nat) (sys : CacheSystem) (key : String)
    (hmiss1 : assocLookup key sys.l1.levelOneCache = none)
    (hmiss2 : assocLookup (getCacheServiceKey key) sys.store.data = none)
    (hnn : isNil (provider key) = false) :
    (let c1 := L1getter provider ttlSeconds now sys.l1 key
     let sys2 := applyEvents c1.published sys
     let c2 := L1getter provider ttlSeconds now2 sys2.l1 key
     c1.providerCalls = 1 ∧ c1.value = provider key ∧
     c2.providerCalls = 0 ∧ c2.value = provider key) ∧
    (let d1 := L2getter provider ttlSeconds sys.store key
     let d2 := L2getter provider ttlSeconds d1.store key
     d1.providerCalls = 1 ∧ d1.value = provider key ∧
     d2.providerCalls = 0 ∧ d2.value = provider key) := by
  constructor
  · by_cases ht : jsTruthyNat ttlSeconds <;>
      simp [L1getter, applyEvents, handleEvent, hmiss1, hnn, ht, isNil_vNull,
        CacheServiceEvents_L1_UPDATE, CacheServiceEvents_REST,
        assocLookup_insert_self]
  · by_cases ht : jsTruthyNat ttlSeconds <;>
      simp [L2getter, hmiss2, hnn, ht, isNil_vNull, kvSet, kvExpire_data,
        assocLookup_insert_self]

/-- C2 witness: key `"k"` on a fresh replica with provider result 42 and no
TTL: first call computes, second call hits, for both L1 and L2. -/
theorem read_through_spec_witness :
    (assocLookup "k" emptySystem.l1.levelOneCache = none) ∧
    (assocLookup (getCacheServiceKey "k") emptySystem.store.data = none) ∧
    (isNil ((fun _ => JsVal.vNum 42) "k") = false) ∧
    ((let c1 := L1getter (fun _ => JsVal.vNum 42) none 1 emptySystem.l1 "k"
      let sys2 := applyEvents c1.published emptySystem
      let c2 := L1getter (fun _ => JsVal.vNum 42) none 2 sys2.l1 "k"
      c1.providerCalls = 1 ∧ c1.value = (fun _ => JsVal.vNum 42) "k" ∧
      c2.providerCalls = 0 ∧ c2.value = (fun _ => JsVal.vNum 42) "k") ∧
     (let d1 := L2getter (fun _ => JsVal.vNum 42) none emptySystem.store "k"
      let d2 := L2getter (fun _ => JsVal.vNum 42) none d1.store "k"
      d1.providerCalls = 1 ∧ d1.value = (fun _ => JsVal.vNum 42) "k" ∧
      d2.providerCalls = 0 ∧ d2.value = (fun _ => JsVal.vNum 42) "k")) :=
  ⟨by decide, by decide, by decide,
   read_through_spec (fun _ => JsVal.vNum 42) none 1 2 emptySystem "k"
     (by decide) (by decide) (by decide)⟩

/-- C2 counterexample: a provider returning nil (`null`) is invoked again by
the second call — the first call cached nothing, so the second call's
provider invocation count is 1, not 0 as the claim requires. -/
theorem read_through_cex :
    (L1getter (fun _ => JsVal.vNull) none 3
        (applyEvents (L1getter (fun _ => JsVal.vNull) none 2 emptySystem.l1 "k").published
          emptySystem).l1 "k").providerCalls ≠ 0 := by
  decide

/-- C8 (amended): `createCache(key, thunk)` overwrites the namespaced store
key with the thunk's result when that result is non-nil, and writes nothing
(leaving any previous value in place) when the thunk returns nil;
`updateCache(key, updater)` reads the current stored value (or nil), passes
it to the updater, and writes the updater's result back exactly when it is
non-nil, leaving the stored value unchanged otherwise. -/
theorem manual_cache_spec (store : RedisKV) (key : String) (cbResult : JsVal)
    (cb : Option JsVal → JsVal) :
    (isNil cbResult = false →
      assocLookup (getCacheServiceKey key) (createCache store key cbResult).data =
        some cbResult) ∧
    (isNil cbResult = true → createCache store key cbResult = store) ∧
    (isNil (cb (currentOf store key)) = false →
      assocLookup (getCacheServiceKey key) (updateCache store key cb).data =
        some (cb (currentOf store key))) ∧
    (isNil (cb (currentOf store key)) = true → updateCache store key cb = store) := by
  refine ⟨?_, ?_, ?_, ?_⟩ <;> intro h <;>
    simp [createCache, updateCache, kvSet, h, assocLookup_insert_self]

/-- C8 witness: a non-nil create over an existing value and a non-nil update
reading it back. -/
theorem manual_cache_spec_witness :
    (isNil (JsVal.vNum 3) = false →
      assocLookup (getCacheServiceKey "x") (createCache kv7 "x" (JsVal.vNum 3)).data =
        some (JsVal.vNum 3)) ∧
    (isNil (JsVal.vNum 3) = true → createCache kv7 "x" (JsVal.vNum 3) = kv7) ∧
    (isNil ((fun _ => JsVal.vNum 4) (currentOf kv7 "x")) = false →
      assocLookup (getCacheServiceKey "x")
          (updateCache kv7 "x" (fun _ => JsVal.vNum 4)).data =
        some ((fun _ => JsVal.vNum 4) (currentOf kv7 "x"))) ∧
    (isNil ((fun _ => JsVal.vNum 4) (currentOf kv7 "x")) = true →
      updateCache kv7 "x" (fun _ => JsVal.vNum 4) = kv7) :=
  manual_cache_spec kv7 "x" (JsVal.vNum 3) (fun _ => JsVal.vNum 4)

/-- C8 counterexample: the thunk returns nil, and `createCache` does NOT
overwrite — the previously stored 7 survives, contradicting the claim's
unconditional overwrite. -/
theorem manual_cache_cex :
    createCache kv7 "x" JsVal.vNull = kv7 ∧
    assocLookup (getCacheServiceKey "x") (createCache kv7 "x" JsVal.vNull).data =
      some (JsVal.vNum 7) := ⟨rfl, rfl⟩

/-- C7: on each sweep of the TTL checker, every TTL-indexed entry with
`createdAt + ttl*1000 < now` is deleted from both the value map and the TTL
index, and every entry with `createdAt + ttl*1000 >= now` is retained in
both (its TTL entry untouched, its value-map binding unchanged); in
particular an entry inserted with `ttlSeconds = 1` is still present while
`now - createdAt <= 1000` and absent after the first sweep at which
`now - createdAt > 1000`. -/
theorem cache_checker_spec (now : Nat) (st : L1State) (k : String) (e : L1TTL)
    (hnd : (st.levelOneCacheTTL.map Prod.fst).Nodup)
    (hk : assocLookup k st.levelOneCacheTTL = some e) :
    (e.createdAt + e.ttl * 1000 < now →
      assocLookup k (cacheChecker now st).levelOneCache = none ∧
      assocLookup k (cacheChecker now st).levelOneCacheTTL = none) ∧
    (e.createdAt + e.ttl * 1000 ≥ now →
      assocLookup k (cacheChecker now st).levelOneCacheTTL = some e ∧
      assocLookup k (cacheChecker now st).levelOneCache =
        assocLookup k st.levelOneCache) ∧
    (e.ttl = 1 →
      (now - e.createdAt ≤ 1000 →
        assocLookup k (cacheChecker now st).levelOneCacheTTL = some e) ∧
      (now - e.createdAt > 1000 →
        assocLookup k (cacheChecker now st).levelOneCache = none)) := by
  obtain ⟨c, t⟩ := st
  simp only at hnd hk
  have hexp : e.createdAt + e.ttl * 1000 < now →
      k ∈ (t.filter
        (fun p => decide (p.2.createdAt + p.2.ttl * 1000 < now))).map Prod.fst :=
    fun h => mem_keys_filter hk (by simpa using h)
  have hnot : ¬ (e.createdAt + e.ttl * 1000 < now) →
      k ∉ (t.filter
        (fun p => decide (p.2.createdAt + p.2.ttl * 1000 < now))).map Prod.fst :=
    fun h => not_mem_keys_filter hnd hk (by simpa using h)
  refine ⟨?_, ?_, ?_⟩
  · intro h
    have hm := hexp h
    simp [cacheChecker, foldl_eraseBoth, assocLookup_foldl_erase, hm]
  · intro h
    have hm := hnot (by omega)
    simp [cacheChecker, foldl_eraseBoth, assocLookup_foldl_erase, hm, hk]
  · intro h1
    refine ⟨?_, ?_⟩
    · intro h2
      have hm := hnot (by omega)
      simp [cacheChecker, foldl_eraseBoth, assocLookup_foldl_erase, hm, hk]
    · intro h2
      have hm := hexp (by omega)
      simp [cacheChecker, foldl_eraseBoth, assocLookup_foldl_erase, hm]

/-- C7 witness: the entry `("k", createdAt 0, ttl 1)` under a sweep at
`now = 2000` (expired) — the hypotheses hold and the theorem applies. -/
theorem cache_checker_spec_witness :
    ((st7.levelOneCacheTTL.map Prod.fst).Nodup) ∧
    (assocLookup "k" st7.levelOneCacheTTL = some { createdAt := 0, ttl := 1 }) ∧
    ((({ createdAt := 0, ttl := 1 } : L1TTL).createdAt +
        ({ createdAt := 0, ttl := 1 } : L1TTL).ttl * 1000 < 2000 →
      assocLookup "k" (cacheChecker 2000 st7).levelOneCache = none ∧
      assocLookup "k" (cacheChecker 2000 st7).levelOneCacheTTL = none) ∧
    (({ createdAt := 0, ttl := 1 } : L1TTL).createdAt +
        ({ createdAt := 0, ttl := 1 } : L1TTL).ttl * 1000 ≥ 2000 →
      assocLookup "k" (cacheChecker 2000 st7).levelOneCacheTTL =
        some { createdAt := 0, ttl := 1 } ∧
      assocLookup "k" (cacheChecker 2000 st7).levelOneCache =
        assocLookup "k" st7.levelOneCache) ∧
    (({ createdAt := 0, ttl := 1 } : L1TTL).ttl = 1 →
      (2000 - ({ createdAt := 0, ttl := 1 } : L1TTL).createdAt ≤ 1000 →
        assocLookup "k" (cacheChecker 2000 st7).levelOneCacheTTL =
          some { createdAt := 0, ttl := 1 }) ∧
      (2000 - ({ createdAt := 0, ttl := 1 } : L1TTL).createdAt > 1000 →
        assocLookup "k" (cacheChecker 2000 st7).levelOneCache = none))) :=
  ⟨by decide, by decide,
   cache_checker_spec 2000 st7 "k" { createdAt := 0, ttl := 1 } (by decide) (by decide)⟩
